import Mathlib

/-!
Verification of the MCP/OpenAI orchestration core
(`2_open_ai_integration/client.py`, `1_simple_server/server.py`,
`1_simple_server/client-stdio.py`) against its specification.

The embedding keeps the Python names where Lean allows it.  External
collaborators (the OpenAI model service and the MCP `ClientSession`,
which are libraries rather than repository source) are modelled from the
specification as oracles/parameters.  `process_query` is instrumented
with an event trace recording each discovery call, each model call (with
the exact conversation, tool schemas and tool-choice passed) and each
tool invocation (with the timeout passed), so that temporal claims about
call counts and ordering become statements about the trace.
-/

namespace MCPCookbook

/-- Argument mapping of a tool call: parameter name → integer value
(the repository's tools take integer parameters).  `json.loads` of the
model's arguments string is treated as already performed. -/
def Args := List (String × Int)

instance : DecidableEq Args := inferInstanceAs (DecidableEq (List (String × Int)))

instance : Repr Args := inferInstanceAs (Repr (List (String × Int)))

/-- A tool descriptor as reported by `list_tools`: name, optional
description, and the input schema (kept opaque as a string, since the
code only passes it through verbatim). -/
structure Tool where
  name : String
  description : Option String
  inputSchema : String
deriving DecidableEq, Repr

/-- The `function` payload of an OpenAI tool schema, as built by
`get_mcp_tools` (client.py lines 79-83). -/
structure FunctionSchema where
  name : String
  description : String
  parameters : String
deriving DecidableEq, Repr

/-- `ChatCompletionToolParam`: `type="function"` plus the function
payload (client.py lines 77-84). -/
structure ChatCompletionToolParam where
  type : String
  function : FunctionSchema
deriving DecidableEq, Repr

/-- One content block of a tool result: a text block, or other media
(image/resource), which carries no `.text` attribute. -/
inductive ContentBlock : Type where
  | text (s : String)
  | other
deriving DecidableEq, Repr

/-- `CallToolResult`: ordered content blocks plus the `isError` flag. -/
structure CallToolResult where
  content : List ContentBlock
  isError : Bool
deriving DecidableEq, Repr

/-- Faults raised by the session layer (modelled from the spec's error
taxonomy: `Timeout`, `TransportLost`). -/
inductive SessionError : Type where
  | timeout
  | transportLost
deriving DecidableEq, Repr

/-- Faults that `get_mcp_tools` / `process_query` can raise:
`RuntimeError("Session is not initialized")` (client.py lines 73, 119),
the `IndexError` from `result.content[0]` on an empty content list, the
missing `.text` attribute on a non-text first block (line 133), and a
propagated session fault. -/
inductive ClientError : Type where
  | sessionNotInitialized
  | contentIndexError
  | contentNoText
  | sessionError (e : SessionError)
deriving DecidableEq, Repr

/-- Modelled from the spec: the client-side `Session` (the MCP
`ClientSession` class is a library, not repository source).  In `Ready`
state it holds the server's tool descriptors and a `callTool` operation
taking a name, arguments and an optional timeout in seconds
(`read_timeout_seconds`; `none` means no timeout was passed, so the
wait is unbounded).  Invocation failures of the registry
(`UnknownTool`, `InvalidArguments`) are delivered as results with
`isError = true` and the failure as an error-content text block;
`Timeout` and `TransportLost` are raised as session faults. -/
structure Session where
  tools : List Tool
  callTool : String → Args → Option Nat → Except SessionError CallToolResult

/-- The `tool_choice` directive of a model call. -/
inductive ToolChoice : Type where
  | auto
  | noneChoice
deriving DecidableEq, Repr

/-- One tool-call request emitted by the model: correlation id, function
name, and (already-decoded) arguments. -/
structure ToolCall where
  id : String
  name : String
  arguments : Args
deriving DecidableEq, Repr

/-- An assistant message returned by the model service: optional text
content and an optional list of tool-call requests (the OpenAI type has
`tool_calls : Optional[List[...]]`). -/
structure AssistantMessage where
  content : Option String
  tool_calls : Option (List ToolCall)
deriving DecidableEq, Repr

/-- Python truthiness of `assistant_message.tool_calls`
(client.py line 116): `None` and the empty list are falsy. -/
def truthyToolCalls : Option (List ToolCall) → Bool
  | Option.none => false
  | Option.some l => !l.isEmpty

/-- A conversation message: user text, the assistant message appended
verbatim, or a tool-role message carrying a correlation id and content
text (client.py lines 110-113, 129-135). -/
inductive Message : Type where
  | user (content : String)
  | assistant (m : AssistantMessage)
  | tool (tool_call_id : String) (content : String)
deriving DecidableEq, Repr

/-- The model service as a black-box oracle: conversation, tool schemas
and tool-choice in, assistant message out. -/
def ModelService :=
  List Message → List ChatCompletionToolParam → ToolChoice → AssistantMessage

/-- Trace events of one `process_query` run: a `list_tools` discovery
call, a model call (with the exact inputs passed), or a tool invocation
(with the timeout passed). -/
inductive Event : Type where
  | listToolsEv
  | modelCall (messages : List Message) (tools : List ChatCompletionToolParam)
      (choice : ToolChoice)
  | toolCall (name : String) (arguments : Args) (timeout : Option Nat)
deriving DecidableEq, Repr

/-- The per-descriptor schema translation performed inside
`get_mcp_tools` (client.py lines 77-84): `type="function"`,
`name = tool.name`, `description = tool.description or ""`,
`parameters = tool.inputSchema`. -/
def toolParamOf (tool : Tool) : ChatCompletionToolParam :=
  { type := "function"
    function :=
      { name := tool.name
        description := tool.description.getD ""
        parameters := tool.inputSchema } }

/-- `MCPOpenAIClient.get_mcp_tools` (client.py lines 67-86): raises
`RuntimeError` when `self.mcp_session is None`, otherwise lists the
session's tools and maps each through the schema translation. -/
def get_mcp_tools (mcp_session : Option Session) :
    Except ClientError (List ChatCompletionToolParam) :=
  match mcp_session with
  | Option.none => Except.error ClientError.sessionNotInitialized
  | Option.some s => Except.ok (s.tools.map toolParamOf)

/-- `result.content[0].text` (client.py line 133): `IndexError` on an
empty content list; the `.text` attribute exists only on a text block. -/
def extractText : List ContentBlock → Except ClientError String
  | [] => Except.error ClientError.contentIndexError
  | ContentBlock.text s :: _ => Except.ok s
  | ContentBlock.other :: _ => Except.error ClientError.contentNoText

/-- Body of the tool-call loop (client.py lines 121-135): invoke the
tool with no timeout argument, then append the tool-role message built
from the result's first content block.  Accumulates the conversation
and the trace. -/
def toolLoopStep (s : Session) (acc : List Message × List Event)
    (tool_call : ToolCall) : Except ClientError (List Message × List Event) := do
  let result ← (s.callTool tool_call.name tool_call.arguments Option.none).mapError
      ClientError.sessionError
  let text ← extractText result.content
  pure (acc.1 ++ [Message.tool tool_call.id text],
        acc.2 ++ [Event.toolCall tool_call.name tool_call.arguments Option.none])

/-- The tool-dispatch branch of `process_query` (client.py lines
116-144): re-checks that the session is initialized (lines 118-119),
runs the tool-call loop, then makes the second model call with the
augmented conversation, the same tool schemas and `tool_choice="none"`,
returning that call's message content. -/
def handleToolCalls (model : ModelService) (mcp_session : Option Session)
    (mcp_tools : List ChatCompletionToolParam) (messages : List Message)
    (evs : List Event) (calls : List ToolCall) :
    Except ClientError (Option String × List Event) := do
  match mcp_session with
  | Option.none => Except.error ClientError.sessionNotInitialized
  | Option.some s =>
    let acc ← calls.foldlM (toolLoopStep s) (messages, evs)
    let final_response := model acc.1 mcp_tools ToolChoice.noneChoice
    pure (final_response.content,
          acc.2 ++ [Event.modelCall acc.1 mcp_tools ToolChoice.noneChoice])

/-- `MCPOpenAIClient.process_query` (client.py lines 88-147), with an
event trace.  Fetches the tool schemas, makes the first model call with
`tool_choice="auto"`, and either returns the assistant's content
directly (no tool calls) or dispatches every tool call and makes the
second model call. -/
def process_query (model : ModelService) (mcp_session : Option Session)
    (query : String) : Except ClientError (Option String × List Event) := do
  let mcp_tools ← get_mcp_tools mcp_session
  let msgs0 : List Message := [Message.user query]
  let assistant_message := model msgs0 mcp_tools ToolChoice.auto
  let evs : List Event :=
    [Event.listToolsEv, Event.modelCall msgs0 mcp_tools ToolChoice.auto]
  let messages : List Message := msgs0 ++ [Message.assistant assistant_message]
  if truthyToolCalls assistant_message.tool_calls then
    handleToolCalls model mcp_session mcp_tools messages evs
      (assistant_message.tool_calls.getD [])
  else
    pure (assistant_message.content, evs)

/-- `add` from `1_simple_server/server.py` (lines 15-17): the handler
registered as a calculator tool. -/
def add (a b : Int) : Int := a + b

/-- `add_three` from `1_simple_server/server.py` (lines 20-22). -/
def add_three (a : Int) : Int := a + 3

/-- A server-side handler: argument mapping in, integer out; `none`
signals that the arguments do not match the schema. -/
def Handler := Args → Option Int

/-- Handler wrapper for `add`: reads parameters `a` and `b`. -/
def addHandler : Handler := fun args => do
  let a ← (args.lookup "a")
  let b ← (args.lookup "b")
  pure (add a b)

/-- Handler wrapper for `add_three`: reads parameter `a`. -/
def addThreeHandler : Handler := fun args => do
  let a ← (args.lookup "a")
  pure (add_three a)

/-- Modelled from the spec: the server-side Tool Registry `invoke`
operation (§4.1).  An absent name fails with `UnknownTool`, malformed
arguments fail with `InvalidArguments` — both delivered as a result
with `isError = true` and the failure as a single error-content text
block, which is how the orchestrator observes them (spec §4.4 step 5,
scenario C).  A successful handler run wraps the return value as a
single text content block. -/
def registryInvoke (reg : List (String × Handler)) (name : String)
    (args : Args) : CallToolResult :=
  match reg.lookup name with
  | Option.none =>
    { content := [ContentBlock.text ("Unknown tool: " ++ name)], isError := true }
  | Option.some h =>
    match h args with
    | Option.none =>
      { content := [ContentBlock.text ("Invalid arguments for tool: " ++ name)]
        isError := true }
    | Option.some v =>
      { content := [ContentBlock.text (toString v)], isError := false }

/-- The content text that `registryInvoke` produces (its single block). -/
def registryText (reg : List (String × Handler)) (name : String)
    (args : Args) : String :=
  match reg.lookup name with
  | Option.none => "Unknown tool: " ++ name
  | Option.some h =>
    match h args with
    | Option.none => "Invalid arguments for tool: " ++ name
    | Option.some v => toString v

/-- A `Ready` session backed by a registry: `callTool` always returns
the registry's result (never a session fault), regardless of timeout. -/
def mkRegistrySession (reg : List (String × Handler)) (tools : List Tool) :
    Session :=
  { tools
    callTool := fun name args _timeout => Except.ok (registryInvoke reg name args) }

/-- Modelled from the spec: a registry-backed session whose handler
takes `dur` seconds to respond; `callTool` with a timeout shorter than
`dur` "fails with `Timeout`" on expiry (§4.2), while with no timeout
the wait is unbounded and the result is eventually returned. -/
def mkTimedSession (dur : Nat) (reg : List (String × Handler))
    (tools : List Tool) : Session :=
  { tools
    callTool := fun name args timeout =>
      match timeout with
      | Option.some t =>
        if t < dur then Except.error SessionError.timeout
        else Except.ok (registryInvoke reg name args)
      | Option.none => Except.ok (registryInvoke reg name args) }

/-- The registry of `1_simple_server/server.py`: `add` registered as
`"MyCalculator"` and `add_three` as `"MySecondCalculator"`, both with
description `"A calculator tool"` (lines 14-22). -/
def serverRegistry : List (String × Handler) :=
  [("MyCalculator", addHandler), ("MySecondCalculator", addThreeHandler)]

/-- `main` of `1_simple_server/client-stdio.py` (lines 29-42), reduced
to its tool-invocation sequence: two `call_tool` invocations, each with
`read_timeout_seconds = 5`, printing each result's first content text. -/
def clientStdioMain (session : Session) :
    Except ClientError ((String × String) × List Event) := do
  let first_result ← (session.callTool "MyCalculator" [("a", 1), ("b", 2)]
      (Option.some 5)).mapError ClientError.sessionError
  let t1 ← extractText first_result.content
  let second_result ← (session.callTool "MySecondCalculator" [("a", 1)]
      (Option.some 5)).mapError ClientError.sessionError
  let t2 ← extractText second_result.content
  pure ((t1, t2),
    [Event.toolCall "MyCalculator" [("a", 1), ("b", 2)] (Option.some 5),
     Event.toolCall "MySecondCalculator" [("a", 1)] (Option.some 5)])

/-- Model stub for orchestrator scenario A: returns assistant text
directly, with no tool-call requests. -/
def modelStubA : ModelService := fun _msgs _tools choice =>
  match choice with
  | ToolChoice.auto =>
    { content := Option.some "Four, conceptually.", tool_calls := Option.none }
  | ToolChoice.noneChoice =>
    { content := Option.some "unreached", tool_calls := Option.none }

/-- Model stub for orchestrator scenario B: the first call emits one
tool-call request for tool `"add"` with arguments `a=1, b=2`; the
second call returns final text. -/
def modelStubB : ModelService := fun _msgs _tools choice =>
  match choice with
  | ToolChoice.auto =>
    { content := Option.none
      tool_calls := Option.some
        [{ id := "call_1", name := "add", arguments := [("a", 1), ("b", 2)] }] }
  | ToolChoice.noneChoice =>
    { content := Option.some "The answer is 3.", tool_calls := Option.none }

/-- A registry exposing the sum tool of scenario B under the name
`"add"`, backed by the server's `add` handler. -/
def sumRegistry : List (String × Handler) := [("add", addHandler)]

/-- The descriptor set for the sum tool. -/
def sumTools : List Tool :=
  [{ name := "add", description := Option.some "Add two numbers"
     inputSchema := "schema-add" }]

/-- The scenario-B session: the sum registry exposed as a `Ready`
session. -/
def sumSession : Session := mkRegistrySession sumRegistry sumTools

@[simp] lemma exceptBind_ok {ε α β : Type} (a : α) (f : α → Except ε β) :
    (Except.ok a : Except ε α) >>= f = f a := rfl

@[simp] lemma exceptBind_err {ε α β : Type} (e : ε) (f : α → Except ε β) :
    (Except.error e : Except ε α) >>= f = Except.error e := rfl

@[simp] lemma exceptPure_eq_ok {ε α : Type} (a : α) :
    (pure a : Except ε α) = Except.ok a := rfl

@[simp] lemma exceptMap_ok {ε α β : Type} (f : α → β) (a : α) :
    Except.map f (Except.ok a : Except ε α) = Except.ok (f a) := rfl

@[simp] lemma exceptMap_err {ε α β : Type} (f : α → β) (e : ε) :
    Except.map f (Except.error e : Except ε α) = Except.error e := rfl

@[simp] lemma exceptMapError_ok {ε δ α : Type} (a : α) (f : ε → δ) :
    (Except.ok a : Except ε α).mapError f = Except.ok a := rfl

@[simp] lemma exceptMapError_err {ε δ α : Type} (e : ε) (f : ε → δ) :
    (Except.error e : Except ε α).mapError f = Except.error (f e) := rfl

/-- The tool-role message that the loop appends for one tool call
dispatched against a registry-backed session. -/
def registryToolMsg (reg : List (String × Handler)) (tc : ToolCall) : Message :=
  Message.tool tc.id (registryText reg tc.name tc.arguments)

/-- The trace event recorded for one tool call of `process_query`
(timeout `none`: the code passes no `read_timeout_seconds`). -/
def toolEvOf (tc : ToolCall) : Event :=
  Event.toolCall tc.name tc.arguments Option.none

lemma registryInvoke_content (reg : List (String × Handler)) (name : String)
    (args : Args) :
    (registryInvoke reg name args).content =
      [ContentBlock.text (registryText reg name args)] := by
  rcases h : reg.lookup name with _ | f
  · simp [registryInvoke, registryText, h]
  · rcases hf : f args with _ | v
    · simp [registryInvoke, registryText, h, hf]
    · simp [registryInvoke, registryText, h, hf]

lemma extractText_registryInvoke (reg : List (String × Handler)) (name : String)
    (args : Args) :
    extractText (registryInvoke reg name args).content =
      Except.ok (registryText reg name args) := by
  rw [registryInvoke_content]
  rfl

lemma mkRegistrySession_tools (reg : List (String × Handler)) (tools : List Tool) :
    (mkRegistrySession reg tools).tools = tools := rfl

lemma toolLoopStep_registry (reg : List (String × Handler)) (tools : List Tool)
    (acc : List Message × List Event) (tc : ToolCall) :
    toolLoopStep (mkRegistrySession reg tools) acc tc =
      Except.ok (acc.1 ++ [registryToolMsg reg tc], acc.2 ++ [toolEvOf tc]) := by
  simp [toolLoopStep, mkRegistrySession, extractText_registryInvoke,
    registryToolMsg, toolEvOf]

lemma foldlM_toolLoopStep_registry (reg : List (String × Handler))
    (tools : List Tool) (calls : List ToolCall) :
    ∀ ms evs, calls.foldlM (toolLoopStep (mkRegistrySession reg tools)) (ms, evs) =
      Except.ok (ms ++ calls.map (registryToolMsg reg), evs ++ calls.map toolEvOf) := by
  induction calls with
  | nil => intro ms evs; simp [List.foldlM]
  | cons tc rest ih =>
    intro ms evs
    rw [List.foldlM_cons, toolLoopStep_registry]
    simp only [exceptBind_ok]
    rw [ih]
    simp

/-- C2: if the first model call returns an assistant message with zero
tool-call requests (`tool_calls` falsy), `process_query` returns that
message's text content directly, and the trace shows exactly one model
call and no tool invocations. -/
theorem C2_no_tool_calls_direct_answer (model : ModelService) (s : Session)
    (query : String)
    (h : truthyToolCalls (model [Message.user query] (s.tools.map toolParamOf)
        ToolChoice.auto).tool_calls = false) :
    process_query model (Option.some s) query =
      Except.ok
        ((model [Message.user query] (s.tools.map toolParamOf) ToolChoice.auto).content,
         [Event.listToolsEv,
          Event.modelCall [Message.user query] (s.tools.map toolParamOf)
            ToolChoice.auto]) := by
  simp [process_query, get_mcp_tools, h]

/-- Witness for C2: scenario A run with a model stub that answers
directly; the answer is returned after one model call, zero tool
calls. -/
theorem C2_no_tool_calls_direct_answer_witness :
    process_query modelStubA (Option.some (mkRegistrySession [] []))
        "What is 2+2 conceptually?" =
      Except.ok (Option.some "Four, conceptually.",
        [Event.listToolsEv,
         Event.modelCall [Message.user "What is 2+2 conceptually?"] []
           ToolChoice.auto]) :=
  C2_no_tool_calls_direct_answer modelStubA (mkRegistrySession [] [])
    "What is 2+2 conceptually?" rfl

/-- C3: scenario B — the registry's sum handler on `a=1, b=2` yields the
single text block `"3"`, the conversation passed to the second model
call contains the tool-role message `"3"` tagged with the request's id
`"call_1"`, and `process_query` returns the second model call's
text. -/
theorem C3_sum_tool_roundtrip :
    registryInvoke sumRegistry "add" [("a", 1), ("b", 2)] =
      { content := [ContentBlock.text "3"], isError := false } ∧
    process_query modelStubB (Option.some sumSession) "What is 1 + 2?" =
      Except.ok (Option.some "The answer is 3.",
        [Event.listToolsEv,
         Event.modelCall [Message.user "What is 1 + 2?"]
           (sumTools.map toolParamOf) ToolChoice.auto,
         Event.toolCall "add" [("a", 1), ("b", 2)] Option.none,
         Event.modelCall
           [Message.user "What is 1 + 2?",
            Message.assistant
              { content := Option.none
                tool_calls := Option.some
                  [{ id := "call_1", name := "add"
                     arguments := [("a", 1), ("b", 2)] }] },
            Message.tool "call_1" "3"]
           (sumTools.map toolParamOf) ToolChoice.noneChoice]) :=
  ⟨rfl, rfl⟩

/-- Model stub for orchestrator scenario C: the first call emits one
tool-call request naming an unknown tool `"ghost"`. -/
def modelStubC : ModelService := fun _msgs _tools choice =>
  match choice with
  | ToolChoice.auto =>
    { content := Option.none
      tool_calls := Option.some
        [{ id := "call_9", name := "ghost", arguments := [] }] }
  | ToolChoice.noneChoice =>
    { content := Option.some "That tool does not exist.", tool_calls := Option.none }

/-- The assistant message produced by the first model call of a turn. -/
def firstResponse (model : ModelService) (tools : List Tool) (query : String) :
    AssistantMessage :=
  model [Message.user query] (tools.map toolParamOf) ToolChoice.auto

/-- The conversation fed to the second model call when the session is
backed by a registry: user query, first assistant message, then one
tool-role message per emitted call, in emission order. -/
def registryFinalMsgs (model : ModelService) (reg : List (String × Handler))
    (tools : List Tool) (query : String) : List Message :=
  [Message.user query, Message.assistant (firstResponse model tools query)]
    ++ ((firstResponse model tools query).tool_calls.getD []).map (registryToolMsg reg)

/-- A `process_query` run against a registry-backed session, when the
first model call emits tool calls: the loop appends one tool-role
message per call in emission order and the second model call is made. -/
lemma process_query_registry_run (model : ModelService)
    (reg : List (String × Handler)) (tools : List Tool) (query : String)
    (htr : truthyToolCalls (firstResponse model tools query).tool_calls = true) :
    process_query model (Option.some (mkRegistrySession reg tools)) query =
      Except.ok
        ((model (registryFinalMsgs model reg tools query) (tools.map toolParamOf)
            ToolChoice.noneChoice).content,
         [Event.listToolsEv,
          Event.modelCall [Message.user query] (tools.map toolParamOf)
            ToolChoice.auto]
           ++ ((firstResponse model tools query).tool_calls.getD []).map toolEvOf
           ++ [Event.modelCall (registryFinalMsgs model reg tools query)
                 (tools.map toolParamOf) ToolChoice.noneChoice]) := by
  simp only [process_query, get_mcp_tools, mkRegistrySession_tools, exceptBind_ok,
    firstResponse] at htr ⊢
  rw [if_pos htr]
  simp only [handleToolCalls, foldlM_toolLoopStep_registry, exceptBind_ok,
    exceptPure_eq_ok, registryFinalMsgs, firstResponse]
  simp

/-- C1: when a tool-call request emitted by the model fails at the
registry (`UnknownTool` / `InvalidArguments`, delivered as an
`isError` result), `process_query` does not abort: it appends a
tool-role message carrying the failure text, proceeds to the second
model call, and completes with `Except.ok`. -/
theorem C1_tool_failure_folded (model : ModelService)
    (reg : List (String × Handler)) (tools : List Tool) (query : String)
    (tc : ToolCall)
    (hmem : tc ∈ ((firstResponse model tools query).tool_calls.getD []))
    (hfail : (registryInvoke reg tc.name tc.arguments).isError = true) :
    process_query model (Option.some (mkRegistrySession reg tools)) query =
      Except.ok
        ((model (registryFinalMsgs model reg tools query) (tools.map toolParamOf)
            ToolChoice.noneChoice).content,
         [Event.listToolsEv,
          Event.modelCall [Message.user query] (tools.map toolParamOf)
            ToolChoice.auto]
           ++ ((firstResponse model tools query).tool_calls.getD []).map toolEvOf
           ++ [Event.modelCall (registryFinalMsgs model reg tools query)
                 (tools.map toolParamOf) ToolChoice.noneChoice]) ∧
    Message.tool tc.id (registryText reg tc.name tc.arguments) ∈
      registryFinalMsgs model reg tools query ∧
    (registryInvoke reg tc.name tc.arguments).content =
      [ContentBlock.text (registryText reg tc.name tc.arguments)] := by
  have htr : truthyToolCalls (firstResponse model tools query).tool_calls = true := by
    rcases hcalls : (firstResponse model tools query).tool_calls with _ | l
    · rw [hcalls] at hmem; simp at hmem
    · rcases l with _ | ⟨a, as⟩
      · rw [hcalls] at hmem; simp at hmem
      · rfl
  refine ⟨process_query_registry_run model reg tools query htr, ?_,
    registryInvoke_content reg tc.name tc.arguments⟩
  unfold registryFinalMsgs
  exact List.mem_append_right _ (List.mem_map_of_mem (registryToolMsg reg) hmem)

/-- Witness for C1: scenario C run — the model requests the unknown tool
`"ghost"`, `process_query` completes and the second-call conversation
contains the error-content tool message. -/
theorem C1_tool_failure_folded_witness :
    process_query modelStubC (Option.some sumSession) "Use the ghost tool" =
      Except.ok
        ((modelStubC (registryFinalMsgs modelStubC sumRegistry sumTools
            "Use the ghost tool") (sumTools.map toolParamOf)
            ToolChoice.noneChoice).content,
         [Event.listToolsEv,
          Event.modelCall [Message.user "Use the ghost tool"]
            (sumTools.map toolParamOf) ToolChoice.auto]
           ++ ((firstResponse modelStubC sumTools "Use the ghost tool").tool_calls.getD
               []).map toolEvOf
           ++ [Event.modelCall (registryFinalMsgs modelStubC sumRegistry sumTools
                 "Use the ghost tool") (sumTools.map toolParamOf)
                 ToolChoice.noneChoice]) ∧
    Message.tool "call_9" "Unknown tool: ghost" ∈
      registryFinalMsgs modelStubC sumRegistry sumTools "Use the ghost tool" ∧
    (registryInvoke sumRegistry "ghost" []).content =
      [ContentBlock.text "Unknown tool: ghost"] :=
  C1_tool_failure_folded modelStubC sumRegistry sumTools "Use the ghost tool"
    { id := "call_9", name := "ghost", arguments := [] } (by decide) (by decide)

lemma toolLoopStep_ok (s : Session) (acc : List Message × List Event)
    (tc : ToolCall) (x : List Message × List Event)
    (h : toolLoopStep s acc tc = Except.ok x) :
    ∃ t, x = (acc.1 ++ [Message.tool tc.id t], acc.2 ++ [toolEvOf tc]) := by
  unfold toolLoopStep at h
  rcases hc : s.callTool tc.name tc.arguments Option.none with e | r <;> rw [hc] at h
  · simp at h
  · simp only [exceptMapError_ok, exceptBind_ok] at h
    rcases ht : extractText r.content with e | t <;> rw [ht] at h
    · simp at h
    · simp only [exceptBind_ok, exceptPure_eq_ok, Except.ok.injEq] at h
      exact ⟨t, h.symm⟩

lemma foldlM_toolLoopStep_trace (s : Session) (calls : List ToolCall) :
    ∀ ms evs acc, calls.foldlM (toolLoopStep s) (ms, evs) = Except.ok acc →
      ∃ tevs, acc.2 = evs ++ tevs ∧ ∀ e ∈ tevs, ∃ tc ∈ calls, e = toolEvOf tc := by
  induction calls with
  | nil =>
    intro ms evs acc h
    simp only [List.foldlM_nil, exceptPure_eq_ok, Except.ok.injEq] at h
    exact ⟨[], by simp [← h]⟩
  | cons tc rest ih =>
    intro ms evs acc h
    rw [List.foldlM_cons] at h
    rcases hstep : toolLoopStep s (ms, evs) tc with e | x <;> rw [hstep] at h
    · simp at h
    · simp only [exceptBind_ok] at h
      obtain ⟨t, hx⟩ := toolLoopStep_ok s (ms, evs) tc x hstep
      subst hx
      obtain ⟨tevs, h2, h3⟩ := ih _ _ acc h
      refine ⟨toolEvOf tc :: tevs, ?_, ?_⟩
      · rw [h2]; simp
      · intro e he
        rcases List.mem_cons.mp he with he | he
        · exact ⟨tc, List.mem_cons_self tc rest, he⟩
        · obtain ⟨tc2, hm, he2⟩ := h3 e he
          exact ⟨tc2, List.mem_cons_of_mem tc hm, he2⟩

lemma handleToolCalls_ok (model : ModelService) (mcp_session : Option Session)
    (mcp_tools : List ChatCompletionToolParam) (messages : List Message)
    (evs : List Event) (calls : List ToolCall) (r : Option String)
    (tr : List Event)
    (h : handleToolCalls model mcp_session mcp_tools messages evs calls =
      Except.ok (r, tr)) :
    ∃ s acc, mcp_session = Option.some s ∧
      calls.foldlM (toolLoopStep s) (messages, evs) = Except.ok acc ∧
      r = (model acc.1 mcp_tools ToolChoice.noneChoice).content ∧
      tr = acc.2 ++ [Event.modelCall acc.1 mcp_tools ToolChoice.noneChoice] := by
  rcases mcp_session with _ | s
  · simp [handleToolCalls] at h
  · simp only [handleToolCalls] at h
    rcases hacc : calls.foldlM (toolLoopStep s) (messages, evs) with e | acc <;>
      rw [hacc] at h
    · simp at h
    · simp only [exceptBind_ok, exceptPure_eq_ok, Except.ok.injEq, Prod.mk.injEq] at h
      exact ⟨s, acc, rfl, hacc, h.1.symm, h.2.symm⟩

/-- The two possible outcomes of a successful `process_query` run: the
one-round direct answer, or the two-round run with a tool-call loop in
between. -/
lemma process_query_ok_cases (model : ModelService) (msession : Option Session)
    (query : String) (r : Option String) (tr : List Event)
    (h : process_query model msession query = Except.ok (r, tr)) :
    ∃ s, msession = Option.some s ∧
      ((truthyToolCalls (firstResponse model s.tools query).tool_calls = false ∧
        r = (firstResponse model s.tools query).content ∧
        tr = [Event.listToolsEv,
              Event.modelCall [Message.user query] (s.tools.map toolParamOf)
                ToolChoice.auto]) ∨
       (truthyToolCalls (firstResponse model s.tools query).tool_calls = true ∧
        ∃ acc,
          ((firstResponse model s.tools query).tool_calls.getD []).foldlM
              (toolLoopStep s)
              ([Message.user query,
                Message.assistant (firstResponse model s.tools query)],
               [Event.listToolsEv,
                Event.modelCall [Message.user query] (s.tools.map toolParamOf)
                  ToolChoice.auto]) = Except.ok acc ∧
          r = (model acc.1 (s.tools.map toolParamOf) ToolChoice.noneChoice).content ∧
          tr = acc.2 ++ [Event.modelCall acc.1 (s.tools.map toolParamOf)
                  ToolChoice.noneChoice])) := by
  rcases msession with _ | s
  · simp [process_query, get_mcp_tools] at h
  · refine ⟨s, rfl, ?_⟩
    simp only [process_query, get_mcp_tools, exceptBind_ok, firstResponse] at h
    rcases htr : truthyToolCalls
        (model [Message.user query] (s.tools.map toolParamOf)
          ToolChoice.auto).tool_calls with _ | _
    · rw [if_neg (by simp [htr])] at h
      simp only [exceptPure_eq_ok, Except.ok.injEq, Prod.mk.injEq] at h
      exact Or.inl ⟨by simpa [firstResponse] using htr,
        by simp [firstResponse, ← h.1], by simp [← h.2]⟩
    · rw [if_pos htr] at h
      obtain ⟨s2, acc, hs2, hfold, hr, htr2⟩ :=
        handleToolCalls_ok model (Option.some s) _ _ _ _ r tr h
      cases hs2
      exact Or.inr ⟨by simpa [firstResponse] using htr,
        acc, by simpa [firstResponse] using hfold, hr, htr2⟩

/-- Is this event a model call? -/
def isModelCallEv : Event → Bool
  | Event.modelCall _ _ _ => true
  | _ => false

/-- Is this event a tool invocation? -/
def isToolCallEv : Event → Bool
  | Event.toolCall _ _ _ => true
  | _ => false

/-- The events strictly after the first model-call event of a trace. -/
def dropThroughModelCall : List Event → List Event
  | [] => []
  | e :: rest => if isModelCallEv e then rest else dropThroughModelCall rest

lemma dropThroughModelCall_append_of_no_model (tevs l : List Event)
    (h : ∀ e ∈ tevs, isModelCallEv e = false) :
    dropThroughModelCall (tevs ++ l) = dropThroughModelCall l := by
  induction tevs with
  | nil => rfl
  | cons e rest ih =>
    have he := h e (List.mem_cons_self e rest)
    simp only [List.cons_append, dropThroughModelCall, he, Bool.false_eq_true,
      if_false]
    exact ih (fun x hx => h x (List.mem_cons_of_mem e hx))

lemma countP_model_of_no_model (tevs : List Event)
    (h : ∀ e ∈ tevs, isModelCallEv e = false) :
    tevs.countP (fun e => isModelCallEv e) = 0 :=
  List.countP_eq_zero.mpr (by intro e he; simp [h e he])

/-- C4: in every successful `process_query` run, the model service is
called at most twice, every model call after the first carries
tool-choice `"none"`, and no tool invocation follows the second model
call. -/
theorem C4_model_called_at_most_twice (model : ModelService)
    (msession : Option Session) (query : String) (r : Option String)
    (tr : List Event)
    (h : process_query model msession query = Except.ok (r, tr)) :
    tr.countP (fun e => isModelCallEv e) ≤ 2 ∧
    (∀ msgs tools2 choice,
        Event.modelCall msgs tools2 choice ∈ dropThroughModelCall tr →
        choice = ToolChoice.noneChoice) ∧
    (∀ e ∈ dropThroughModelCall (dropThroughModelCall tr),
        isToolCallEv e = false) := by
  obtain ⟨s, _, hcase⟩ := process_query_ok_cases model msession query r tr h
  rcases hcase with ⟨_, _, htrace⟩ | ⟨_, acc, hfold, _, htrace⟩
  · subst htrace
    refine ⟨by simp [List.countP_cons, isModelCallEv], ?_, ?_⟩
    · intro msgs tools2 choice hmem
      simp [dropThroughModelCall, isModelCallEv] at hmem
    · intro e he
      simp [dropThroughModelCall, isModelCallEv] at he
  · obtain ⟨tevs, hacc2, htool⟩ := foldlM_toolLoopStep_trace s _ _ _ acc hfold
    have hmf : ∀ e ∈ tevs, isModelCallEv e = false := by
      intro e he
      obtain ⟨tc, _, rfl⟩ := htool e he
      rfl
    subst htrace
    rw [hacc2]
    have hshape : ([Event.listToolsEv,
        Event.modelCall [Message.user query] (s.tools.map toolParamOf)
          ToolChoice.auto] ++ tevs) ++
        [Event.modelCall acc.1 (s.tools.map toolParamOf) ToolChoice.noneChoice] =
        Event.listToolsEv ::
          Event.modelCall [Message.user query] (s.tools.map toolParamOf)
            ToolChoice.auto ::
          (tevs ++ [Event.modelCall acc.1 (s.tools.map toolParamOf)
            ToolChoice.noneChoice]) := by simp
    rw [hshape]
    have hdrop1 : dropThroughModelCall
        (Event.listToolsEv ::
          Event.modelCall [Message.user query] (s.tools.map toolParamOf)
            ToolChoice.auto ::
          (tevs ++ [Event.modelCall acc.1 (s.tools.map toolParamOf)
            ToolChoice.noneChoice])) =
        tevs ++ [Event.modelCall acc.1 (s.tools.map toolParamOf)
          ToolChoice.noneChoice] := by
      simp [dropThroughModelCall, isModelCallEv]
    refine ⟨?_, ?_, ?_⟩
    · simp [List.countP_cons, List.countP_append, isModelCallEv,
        countP_model_of_no_model tevs hmf]
      exact fun a ha => hmf a ha
    · intro msgs tools2 choice hmem
      rw [hdrop1] at hmem
      rcases List.mem_append.mp hmem with hmem | hmem
      · have := hmf _ hmem
        simp [isModelCallEv] at this
      · rcases List.mem_singleton.mp hmem with heq
        cases heq
        rfl
    · intro e he
      rw [hdrop1] at he
      rw [dropThroughModelCall_append_of_no_model tevs _ hmf] at he
      simp [dropThroughModelCall, isModelCallEv] at he

/-- Witness for C4: the scenario-B run makes exactly two model calls,
the second with tool-choice `"none"`, and no tool call after it. -/
theorem C4_model_called_at_most_twice_witness :
    ([Event.listToolsEv,
      Event.modelCall [Message.user "What is 1 + 2?"] (sumTools.map toolParamOf)
        ToolChoice.auto,
      Event.toolCall "add" [("a", 1), ("b", 2)] Option.none,
      Event.modelCall
        [Message.user "What is 1 + 2?",
         Message.assistant
           { content := Option.none
             tool_calls := Option.some
               [{ id := "call_1", name := "add"
                  arguments := [("a", 1), ("b", 2)] }] },
         Message.tool "call_1" "3"]
        (sumTools.map toolParamOf) ToolChoice.noneChoice] : List Event).countP
        (fun e => isModelCallEv e) ≤ 2 ∧
    (∀ msgs tools2 choice,
        Event.modelCall msgs tools2 choice ∈ dropThroughModelCall
          [Event.listToolsEv,
           Event.modelCall [Message.user "What is 1 + 2?"]
             (sumTools.map toolParamOf) ToolChoice.auto,
           Event.toolCall "add" [("a", 1), ("b", 2)] Option.none,
           Event.modelCall
             [Message.user "What is 1 + 2?",
              Message.assistant
                { content := Option.none
                  tool_calls := Option.some
                    [{ id := "call_1", name := "add"
                       arguments := [("a", 1), ("b", 2)] }] },
              Message.tool "call_1" "3"]
             (sumTools.map toolParamOf) ToolChoice.noneChoice] →
        choice = ToolChoice.noneChoice) ∧
    (∀ e ∈ dropThroughModelCall (dropThroughModelCall
        [Event.listToolsEv,
         Event.modelCall [Message.user "What is 1 + 2?"]
           (sumTools.map toolParamOf) ToolChoice.auto,
         Event.toolCall "add" [("a", 1), ("b", 2)] Option.none,
         Event.modelCall
           [Message.user "What is 1 + 2?",
            Message.assistant
              { content := Option.none
                tool_calls := Option.some
                  [{ id := "call_1", name := "add"
                     arguments := [("a", 1), ("b", 2)] }] },
            Message.tool "call_1" "3"]
           (sumTools.map toolParamOf) ToolChoice.noneChoice]),
        isToolCallEv e = false) :=
  C4_model_called_at_most_twice modelStubB (Option.some sumSession)
    "What is 1 + 2?" (Option.some "The answer is 3.") _ rfl

/-- Is this event a discovery (`list_tools`) call? -/
def isListToolsEv : Event → Bool
  | Event.listToolsEv => true
  | _ => false

lemma countP_listTools_of_toolEvs (tevs : List Event)
    (h : ∀ e ∈ tevs, ∃ tc, e = toolEvOf tc) :
    tevs.countP (fun e => isListToolsEv e) = 0 :=
  List.countP_eq_zero.mpr (by
    intro e he
    obtain ⟨tc, rfl⟩ := h e he
    simp [toolEvOf, isListToolsEv])

/-- C5: the tool adapter is the pure per-descriptor mapping
`{name, description or "", parameters: inputSchema verbatim}`, and in
every successful run it is invoked exactly once, immediately before the
first model call. -/
theorem C5_tool_adapter_pure_mapping (td : Tool) (model : ModelService)
    (s : Session) (query : String) (r : Option String) (tr : List Event)
    (h : process_query model (Option.some s) query = Except.ok (r, tr)) :
    toolParamOf td =
      { type := "function"
        function := { name := td.name, description := td.description.getD ""
                      parameters := td.inputSchema } } ∧
    (td.description = Option.none → (toolParamOf td).function.description = "") ∧
    get_mcp_tools (Option.some s) = Except.ok (s.tools.map toolParamOf) ∧
    tr.countP (fun e => isListToolsEv e) = 1 ∧
    tr.take 2 = [Event.listToolsEv,
      Event.modelCall [Message.user query] (s.tools.map toolParamOf)
        ToolChoice.auto] := by
  obtain ⟨s2, hs2, hcase⟩ :=
    process_query_ok_cases model (Option.some s) query r tr h
  injection hs2 with hss
  subst hss
  refine ⟨rfl, fun hd => by simp [toolParamOf, hd], rfl, ?_, ?_⟩
  · rcases hcase with ⟨_, _, htrace⟩ | ⟨_, acc, hfold, _, htrace⟩
    · subst htrace
      simp [List.countP_cons, isListToolsEv]
    · obtain ⟨tevs, hacc2, htool⟩ := foldlM_toolLoopStep_trace _ _ _ _ acc hfold
      have htev : ∀ e ∈ tevs, ∃ tc, e = toolEvOf tc := by
        intro e he
        obtain ⟨tc, _, he2⟩ := htool e he
        exact ⟨tc, he2⟩
      subst htrace
      rw [hacc2]
      simp [List.countP_cons, List.countP_append, isListToolsEv,
        countP_listTools_of_toolEvs tevs htev]
      exact fun a ha => (by obtain ⟨tc, rfl⟩ := htev a ha; rfl)
  · rcases hcase with ⟨_, _, htrace⟩ | ⟨_, acc, hfold, _, htrace⟩
    · subst htrace; rfl
    · obtain ⟨tevs, hacc2, _⟩ := foldlM_toolLoopStep_trace _ _ _ _ acc hfold
      subst htrace
      rw [hacc2]
      simp

/-- Witness for C5: the scenario-B run lists tools exactly once, right
before the first model call, and the adapter output for the sum tool is
the verbatim schema triple. -/
theorem C5_tool_adapter_pure_mapping_witness :
    toolParamOf { name := "add", description := Option.some "Add two numbers"
                  inputSchema := "schema-add" } =
      { type := "function"
        function := { name := "add", description := "Add two numbers"
                      parameters := "schema-add" } } ∧
    ((Option.some "Add two numbers" : Option String) = Option.none →
      (toolParamOf { name := "add", description := Option.some "Add two numbers"
                     inputSchema := "schema-add" }).function.description = "") ∧
    get_mcp_tools (Option.some sumSession) =
      Except.ok (sumTools.map toolParamOf) ∧
    ([Event.listToolsEv,
      Event.modelCall [Message.user "What is 1 + 2?"] (sumTools.map toolParamOf)
        ToolChoice.auto,
      Event.toolCall "add" [("a", 1), ("b", 2)] Option.none,
      Event.modelCall
        [Message.user "What is 1 + 2?",
         Message.assistant
           { content := Option.none
             tool_calls := Option.some
               [{ id := "call_1", name := "add"
                  arguments := [("a", 1), ("b", 2)] }] },
         Message.tool "call_1" "3"]
        (sumTools.map toolParamOf) ToolChoice.noneChoice] : List Event).countP
        (fun e => isListToolsEv e) = 1 ∧
    ([Event.listToolsEv,
      Event.modelCall [Message.user "What is 1 + 2?"] (sumTools.map toolParamOf)
        ToolChoice.auto,
      Event.toolCall "add" [("a", 1), ("b", 2)] Option.none,
      Event.modelCall
        [Message.user "What is 1 + 2?",
         Message.assistant
           { content := Option.none
             tool_calls := Option.some
               [{ id := "call_1", name := "add"
                  arguments := [("a", 1), ("b", 2)] }] },
         Message.tool "call_1" "3"]
        (sumTools.map toolParamOf) ToolChoice.noneChoice] : List Event).take 2 =
      [Event.listToolsEv,
       Event.modelCall [Message.user "What is 1 + 2?"]
         (sumTools.map toolParamOf) ToolChoice.auto] :=
  C5_tool_adapter_pure_mapping
    { name := "add", description := Option.some "Add two numbers"
      inputSchema := "schema-add" }
    modelStubB sumSession "What is 1 + 2?" (Option.some "The answer is 3.") _ rfl

/-- C6: with an uninitialized session (the handle is `None`), fetching
tool descriptors raises, the tool-dispatch branch raises, and
`process_query` fails at its first step — none of them proceed. -/
theorem C6_session_not_ready (model : ModelService) (query : String)
    (mcp_tools : List ChatCompletionToolParam) (messages : List Message)
    (evs : List Event) (calls : List ToolCall) :
    get_mcp_tools Option.none = Except.error ClientError.sessionNotInitialized ∧
    handleToolCalls model Option.none mcp_tools messages evs calls =
      Except.error ClientError.sessionNotInitialized ∧
    process_query model Option.none query =
      Except.error ClientError.sessionNotInitialized :=
  ⟨rfl, rfl, rfl⟩

/-- C8: a successful `process_query` run returns exactly the
terminating model call's message content — the final assistant text
when that call produced text, and null (`Option.none`) when it did
not. -/
theorem C8_returns_terminal_content (model : ModelService)
    (msession : Option Session) (query : String) (r : Option String)
    (tr : List Event)
    (h : process_query model msession query = Except.ok (r, tr)) :
    ∃ msgs tools2 choice,
      tr.getLast? = Option.some (Event.modelCall msgs tools2 choice) ∧
      r = (model msgs tools2 choice).content := by
  obtain ⟨s, _, hcase⟩ := process_query_ok_cases model msession query r tr h
  rcases hcase with ⟨_, hr, htrace⟩ | ⟨_, acc, _, hr, htrace⟩
  · subst htrace
    exact ⟨[Message.user query], s.tools.map toolParamOf, ToolChoice.auto,
      rfl, hr⟩
  · subst htrace
    exact ⟨acc.1, s.tools.map toolParamOf, ToolChoice.noneChoice,
      List.getLast?_concat _, hr⟩

/-- Witness for C8: the scenario-A run returns the single model call's
text content, which is the last event's model output. -/
theorem C8_returns_terminal_content_witness :
    ∃ msgs tools2 choice,
      ([Event.listToolsEv,
        Event.modelCall [Message.user "What is 2+2 conceptually?"] []
          ToolChoice.auto] : List Event).getLast? =
        Option.some (Event.modelCall msgs tools2 choice) ∧
      Option.some "Four, conceptually." = (modelStubA msgs tools2 choice).content :=
  C8_returns_terminal_content modelStubA
    (Option.some (mkRegistrySession [] [])) "What is 2+2 conceptually?"
    (Option.some "Four, conceptually.") _ rfl

lemma session_mk_callTool (tools : List Tool)
    (c : String → Args → Option Nat → Except SessionError CallToolResult) :
    (Session.mk tools c).callTool = c := rfl

/-- The text the loop extracts from one `callTool` response: a session
fault propagates, otherwise the first content block's text is taken. -/
def callText (c : String → Args → Option Nat → Except SessionError CallToolResult)
    (name : String) (args : Args) (timeout : Option Nat) :
    Except ClientError String :=
  (c name args timeout).mapError ClientError.sessionError >>= fun r =>
    extractText r.content

lemma toolLoopStep_eq_callText (s : Session) (acc : List Message × List Event)
    (tc : ToolCall) :
    toolLoopStep s acc tc =
      (callText s.callTool tc.name tc.arguments Option.none).map
        (fun t => (acc.1 ++ [Message.tool tc.id t], acc.2 ++ [toolEvOf tc])) := by
  unfold toolLoopStep callText
  rcases s.callTool tc.name tc.arguments Option.none with e | r
  · rfl
  · simp only [exceptMapError_ok, exceptBind_ok]
    rcases extractText r.content with e | t <;> rfl

lemma callText_congr
    (c1 c2 : String → Args → Option Nat → Except SessionError CallToolResult)
    (hct : ∀ n a t, Except.map CallToolResult.content (c1 n a t) =
        Except.map CallToolResult.content (c2 n a t))
    (n : String) (a : Args) (t : Option Nat) :
    callText c1 n a t = callText c2 n a t := by
  have h := hct n a t
  unfold callText
  rcases h1 : c1 n a t with e | r <;> rcases h2 : c2 n a t with e2 | r2 <;>
      rw [h1, h2] at h <;>
      simp only [exceptMap_ok, exceptMap_err, Except.error.injEq,
        Except.ok.injEq, reduceCtorEq] at h
  · rw [h]
  · simp only [exceptMapError_ok, exceptBind_ok]
    rw [h]

lemma foldlM_toolLoopStep_congr (tools : List Tool)
    (c1 c2 : String → Args → Option Nat → Except SessionError CallToolResult)
    (hcall : ∀ n a t, callText c1 n a t = callText c2 n a t)
    (calls : List ToolCall) :
    ∀ acc, calls.foldlM (toolLoopStep (Session.mk tools c1)) acc =
      calls.foldlM (toolLoopStep (Session.mk tools c2)) acc := by
  induction calls with
  | nil => intro acc; rfl
  | cons tc rest ih =>
    intro acc
    rw [List.foldlM_cons, List.foldlM_cons]
    have hstep : toolLoopStep (Session.mk tools c1) acc tc =
        toolLoopStep (Session.mk tools c2) acc tc := by
      rw [toolLoopStep_eq_callText, toolLoopStep_eq_callText,
        session_mk_callTool, session_mk_callTool, hcall]
    rw [hstep]
    rcases toolLoopStep (Session.mk tools c2) acc tc with e | x
    · rfl
    · simp only [exceptBind_ok]
      exact ih x

/-- C9: two sessions whose `callTool` responses agree on content — in
particular, results that differ only in the `isError` flag — produce
identical `process_query` runs: the follow-up tool-role messages carry
only the first content text, with no dependence on `isError` and no
distinguishing error field. -/
theorem C9_isError_flag_invisible (model : ModelService) (tools : List Tool)
    (c1 c2 : String → Args → Option Nat → Except SessionError CallToolResult)
    (query : String)
    (hct : ∀ n a t, Except.map CallToolResult.content (c1 n a t) =
        Except.map CallToolResult.content (c2 n a t)) :
    process_query model (Option.some (Session.mk tools c1)) query =
      process_query model (Option.some (Session.mk tools c2)) query := by
  have hcall := callText_congr c1 c2 hct
  have hfold := foldlM_toolLoopStep_congr tools c1 c2 hcall
  simp only [process_query, get_mcp_tools, exceptBind_ok]
  by_cases htr : truthyToolCalls
      (model [Message.user query] (tools.map toolParamOf)
        ToolChoice.auto).tool_calls = true
  · rw [if_pos htr, if_pos htr]
    simp only [handleToolCalls]
    rw [hfold]
  · rw [if_neg htr, if_neg htr]

/-- A `callTool` oracle returning the fixed text `"3"` with a chosen
`isError` flag. -/
def callToolConstFlag (flag : Bool) :
    String → Args → Option Nat → Except SessionError CallToolResult :=
  fun _ _ _ => Except.ok { content := [ContentBlock.text "3"], isError := flag }

/-- Witness for C9: flipping `isError` on an otherwise identical tool
result leaves the whole run unchanged. -/
theorem C9_isError_flag_invisible_witness :
    process_query modelStubB
        (Option.some (Session.mk sumTools (callToolConstFlag false)))
        "What is 1 + 2?" =
      process_query modelStubB
        (Option.some (Session.mk sumTools (callToolConstFlag true)))
        "What is 1 + 2?" :=
  C9_isError_flag_invisible modelStubB sumTools (callToolConstFlag false)
    (callToolConstFlag true) "What is 1 + 2?" (fun _ _ _ => rfl)

/-- A session whose tool results carry an empty content sequence. -/
def emptyContentSession : Session :=
  Session.mk sumTools
    (fun _ _ _ => Except.ok { content := [], isError := false })

/-- A session whose tool results carry several content blocks after the
leading text `"3"`. -/
def multiBlockSession : Session :=
  Session.mk sumTools
    (fun _ _ _ => Except.ok
      { content := [ContentBlock.text "3", ContentBlock.other,
          ContentBlock.text "ignored"]
        isError := false })

/-- A session whose tool results carry exactly the single text block
`"3"`. -/
def singleBlockSession : Session :=
  Session.mk sumTools
    (fun _ _ _ => Except.ok { content := [ContentBlock.text "3"], isError := false })

/-- C10: the orchestrator consumes only the first content block of each
tool result — trailing blocks are silently discarded (the multi-block
and single-block runs coincide) — and on a result with empty content
the `content[0]` indexing has no value: the error branch is reached and
`process_query` aborts. -/
theorem C10_first_block_only_empty_content_errs :
    (∀ (b : ContentBlock) (rest : List ContentBlock),
        extractText (b :: rest) = extractText [b]) ∧
    extractText [] = Except.error ClientError.contentIndexError ∧
    process_query modelStubB (Option.some multiBlockSession) "What is 1 + 2?" =
      process_query modelStubB (Option.some singleBlockSession) "What is 1 + 2?" ∧
    process_query modelStubB (Option.some emptyContentSession) "What is 1 + 2?" =
      Except.error ClientError.contentIndexError := by
  refine ⟨?_, rfl, rfl, rfl⟩
  intro b rest
  cases b <;> rfl

/-- Counterexample to C7 as stated: in the orchestration loop the tool
is invoked with NO timeout (`call_tool` in `process_query` is passed no
`read_timeout_seconds`), so "each invocation is made with a bounded
timeout" is false of the loop: this run contains a tool-call event
whose timeout is `none`. -/
theorem C7_counterexample_unbounded_invocation :
    ∃ r tr, process_query modelStubB (Option.some sumSession) "What is 1 + 2?" =
        Except.ok (r, tr) ∧
      Event.toolCall "add" [("a", 1), ("b", 2)] Option.none ∈ tr ∧
      ¬ (∀ name args timeout, Event.toolCall name args timeout ∈ tr →
          timeout.isSome = true) := by
  refine ⟨Option.some "The answer is 3.", _, rfl, ?_, ?_⟩
  · simp
  · intro hall
    have h := hall "add" [("a", 1), ("b", 2)] Option.none (by simp)
    simp at h

/-- C7 amended: within `process_query` every tool-call request is
invoked sequentially, in the order the model emitted it, but with no
timeout at all (the loop passes none, so the wait is unbounded and a
slow handler cannot produce `Timeout` there); the bounded 5-second
timeout appears only in the simple stdio client, and a `callTool`
given a timeout shorter than the handler's duration fails with
`Timeout` instead of blocking. -/
theorem C7_amended_sequential_order_unbounded_loop (model : ModelService)
    (reg : List (String × Handler)) (tools : List Tool) (query : String)
    (htr : truthyToolCalls (firstResponse model tools query).tool_calls = true)
    (dur t : Nat) (hslow : t < dur) (n : String) (a : Args) :
    process_query model (Option.some (mkRegistrySession reg tools)) query =
      Except.ok
        ((model (registryFinalMsgs model reg tools query) (tools.map toolParamOf)
            ToolChoice.noneChoice).content,
         [Event.listToolsEv,
          Event.modelCall [Message.user query] (tools.map toolParamOf)
            ToolChoice.auto]
           ++ ((firstResponse model tools query).tool_calls.getD []).map toolEvOf
           ++ [Event.modelCall (registryFinalMsgs model reg tools query)
                 (tools.map toolParamOf) ToolChoice.noneChoice]) ∧
    (∀ tc : ToolCall,
        toolEvOf tc = Event.toolCall tc.name tc.arguments Option.none) ∧
    clientStdioMain (mkRegistrySession serverRegistry []) =
      Except.ok (("3", "4"),
        [Event.toolCall "MyCalculator" [("a", 1), ("b", 2)] (Option.some 5),
         Event.toolCall "MySecondCalculator" [("a", 1)] (Option.some 5)]) ∧
    (mkTimedSession dur reg tools).callTool n a (Option.some t) =
      Except.error SessionError.timeout ∧
    (mkTimedSession dur reg tools).callTool n a Option.none =
      Except.ok (registryInvoke reg n a) := by
  refine ⟨process_query_registry_run model reg tools query htr,
    fun tc => rfl, rfl, ?_, rfl⟩
  simp [mkTimedSession, hslow]

/-- Witness for the amended C7: the scenario-B run dispatches its one
call with timeout `none`; the stdio client's calls carry 5-second
timeouts; a 10-second handler under a 5-second timeout fails with
`Timeout`. -/
theorem C7_amended_sequential_order_unbounded_loop_witness :
    process_query modelStubB (Option.some (mkRegistrySession sumRegistry sumTools))
        "What is 1 + 2?" =
      Except.ok
        ((modelStubB (registryFinalMsgs modelStubB sumRegistry sumTools
            "What is 1 + 2?") (sumTools.map toolParamOf)
            ToolChoice.noneChoice).content,
         [Event.listToolsEv,
          Event.modelCall [Message.user "What is 1 + 2?"]
            (sumTools.map toolParamOf) ToolChoice.auto]
           ++ ((firstResponse modelStubB sumTools
               "What is 1 + 2?").tool_calls.getD []).map toolEvOf
           ++ [Event.modelCall (registryFinalMsgs modelStubB sumRegistry sumTools
                 "What is 1 + 2?") (sumTools.map toolParamOf)
                 ToolChoice.noneChoice]) ∧
    (∀ tc : ToolCall,
        toolEvOf tc = Event.toolCall tc.name tc.arguments Option.none) ∧
    clientStdioMain (mkRegistrySession serverRegistry []) =
      Except.ok (("3", "4"),
        [Event.toolCall "MyCalculator" [("a", 1), ("b", 2)] (Option.some 5),
         Event.toolCall "MySecondCalculator" [("a", 1)] (Option.some 5)]) ∧
    (mkTimedSession 10 sumRegistry sumTools).callTool "add" [] (Option.some 5) =
      Except.error SessionError.timeout ∧
    (mkTimedSession 10 sumRegistry sumTools).callTool "add" [] Option.none =
      Except.ok (registryInvoke sumRegistry "add" []) :=
  C7_amended_sequential_order_unbounded_loop modelStubB sumRegistry sumTools
    "What is 1 + 2?" rfl 10 5 (by decide) "add" []

end MCPCookbook
